import Mathlib

/-!
Verification of the Baidu Wenxin API example script
(src/config/baidu-api-example.py).

The script builds an OpenAI-compatible client from a hardcoded base URL and
an empty API key, issues a single chat-completion request with model
"ernie-3.5-8k", one user message "您好" and three web-search feature flags
all set to false, and prints the raw response.  The request construction is
embedded directly from the source; the behaviour of the remote call itself
(`complete_chat` in the specification's vocabulary) is delegated by the
source to an external SDK and is therefore modelled from the specification's
contract.
-/

namespace BaiduExample

/-- Client configuration, as built by `OpenAI(base_url=..., api_key=...)`
in the source. -/
structure ClientConfig where
  base_url : String
  api_key : String
deriving DecidableEq

/-- Message roles accepted by the chat endpoint. -/
inductive Role where
  | user
  | assistant
  | system
deriving DecidableEq

/-- One chat message, `{"role": ..., "content": ...}` in the source. -/
structure ChatMessage where
  role : Role
  content : String
deriving DecidableEq

/-- The three boolean flags nested under the `web_search` grouping of the
`extra_body` argument in the source. -/
structure WebSearchFlags where
  enable : Bool
  enable_citation : Bool
  enable_trace : Bool
deriving DecidableEq

/-- The per-request options the source passes to
`client.chat.completions.create`: a model identifier, the ordered message
sequence, and the web-search feature flags. -/
structure RequestOptions where
  model : String
  messages : List ChatMessage
  web_search : WebSearchFlags
deriving DecidableEq

/-- Modelled from the spec: the opaque structured result returned by the
remote service (model output, usage metadata, identifiers); the source never
inspects it beyond printing it. -/
structure ChatResponse where
  id : String
  model : String
  content : String
  usage_tokens : Nat
deriving DecidableEq

/-- A JSON-like value, the transmitted wire form of the request body. -/
inductive Json where
  | str (s : String)
  | bool (b : Bool)
  | arr (elems : List Json)
  | obj (fields : List (String × Json))

/-- Wire form of a role. -/
def roleToString : Role → String
  | Role.user => "user"
  | Role.assistant => "assistant"
  | Role.system => "system"

/-- Parse a wire-form role string back. -/
def parseRole (s : String) : Option Role :=
  if s = "user" then some Role.user
  else if s = "assistant" then some Role.assistant
  else if s = "system" then some Role.system
  else none

/-- Wire form of one chat message. -/
def serializeMessage (m : ChatMessage) : Json :=
  Json.obj [("role", Json.str (roleToString m.role)), ("content", Json.str m.content)]

/-- Wire form of the web-search flag group. -/
def serializeFlags (f : WebSearchFlags) : Json :=
  Json.obj [("enable", Json.bool f.enable),
            ("enable_citation", Json.bool f.enable_citation),
            ("enable_trace", Json.bool f.enable_trace)]

/-- The transmitted request body: `model`, `messages`, and the contents of
`extra_body` (the `web_search` group) merged into the top level, as the SDK
transmits them. -/
def serializeRequest (o : RequestOptions) : Json :=
  Json.obj [("model", Json.str o.model),
            ("messages", Json.arr (o.messages.map serializeMessage)),
            ("web_search", serializeFlags o.web_search)]

/-- Modelled from the spec: decode one wire-form chat message. -/
def deserializeMessage : Json → Option ChatMessage
  | Json.obj [("role", Json.str r), ("content", Json.str c)] =>
      (parseRole r).map (fun role => ChatMessage.mk role c)
  | _ => none

/-- Modelled from the spec: decode a wire-form message sequence in order. -/
def deserializeMessages : List Json → Option (List ChatMessage)
  | [] => some []
  | j :: js => do
      let m ← deserializeMessage j
      let ms ← deserializeMessages js
      some (m :: ms)

/-- Modelled from the spec: decode the wire-form web-search flag group. -/
def deserializeFlags : Json → Option WebSearchFlags
  | Json.obj [("enable", Json.bool e),
              ("enable_citation", Json.bool c),
              ("enable_trace", Json.bool t)] => some (WebSearchFlags.mk e c t)
  | _ => none

/-- Modelled from the spec: decode a transmitted request body back into
`RequestOptions` (the round-trip direction of the spec's property 6). -/
def deserializeRequest : Json → Option RequestOptions
  | Json.obj [("model", Json.str m), ("messages", Json.arr js), ("web_search", ws)] => do
      let msgs ← deserializeMessages js
      let flags ← deserializeFlags ws
      some (RequestOptions.mk m msgs flags)
  | _ => none

/-- The client the source constructs: the Qianfan endpoint root and a blank
API key (the source leaves the credential empty with a fill-in comment). -/
def client : ClientConfig :=
  ClientConfig.mk "https://qianfan.baidubce.com/v2" ""

/-- The request the source constructs: model "ernie-3.5-8k", one user
message "您好", and the three web-search flags all false. -/
def requestOptions : RequestOptions :=
  RequestOptions.mk "ernie-3.5-8k"
    [ChatMessage.mk Role.user "您好"]
    (WebSearchFlags.mk false false false)

/-- The body the program transmits on its single call. -/
def transmittedBody : Json :=
  serializeRequest requestOptions

/-- Modelled from the spec: the error taxonomy of section 7 — network,
authentication, validation/request, rate-limit, server, deserialization. -/
inductive ApiError where
  | network
  | authentication
  | validation
  | rateLimit
  | server
  | deserialization
deriving DecidableEq

/-- Modelled from the spec: the possible behaviours of the remote service
once a request reaches it with some credential. -/
inductive ServiceOutcome where
  | success (r : ChatResponse)
  | authReject
  | badRequest
  | rateLimited
  | serverError
  | malformedBody

/-- Modelled from the spec: the world outside the program — process
environment variables, a randomness seed and a clock (none of which the
source reads), which endpoints are reachable, and the remote service's
behaviour for requests that reach it. -/
structure Env where
  envVars : List (String × String)
  randomSeed : Nat
  clock : Nat
  reachable : String → Bool
  service : ClientConfig → Json → ServiceOutcome

/-- Modelled from the spec: `complete_chat(config, options) -> ChatResponse`
(section 4.1).  An unreachable base URL fails with a network error (spec
property 3: network, not authentication or validation).  An empty api_key is
rejected with an authentication error before any response body is
interpreted (spec property 2).  Otherwise the service's outcome is mapped
onto the error taxonomy, and a success response is returned unchanged. -/
def complete_chat (env : Env) (config : ClientConfig) (opts : RequestOptions) :
    Except ApiError ChatResponse :=
  if env.reachable config.base_url then
    if config.api_key = "" then Except.error ApiError.authentication
    else
      match env.service config (serializeRequest opts) with
      | ServiceOutcome.success r => Except.ok r
      | ServiceOutcome.authReject => Except.error ApiError.authentication
      | ServiceOutcome.badRequest => Except.error ApiError.validation
      | ServiceOutcome.rateLimited => Except.error ApiError.rateLimit
      | ServiceOutcome.serverError => Except.error ApiError.server
      | ServiceOutcome.malformedBody => Except.error ApiError.deserialization
  else Except.error ApiError.network

/-- How the process ends: a normal exit with the values printed to standard
output, or termination by an unhandled error. -/
inductive ProcessOutcome where
  | normalExit (stdout : List ChatResponse)
  | crashed (err : ApiError)
deriving DecidableEq

/-- The whole script: perform the single call; on success print the
response and exit normally, on failure let the error terminate the process
(the source catches nothing). -/
def run (env : Env) (config : ClientConfig) (opts : RequestOptions) : ProcessOutcome :=
  match complete_chat env config opts with
  | Except.ok r => ProcessOutcome.normalExit [r]
  | Except.error e => ProcessOutcome.crashed e

/-- An externally visible side effect of the script. -/
inductive Effect where
  | netCall (body : Json)
  | stdoutWrite (r : ChatResponse)

/-- Whether an effect is an outbound network call. -/
def isNetCall : Effect → Bool
  | Effect.netCall _ => true
  | Effect.stdoutWrite _ => false

/-- Whether an effect is a write to standard output. -/
def isStdoutWrite : Effect → Bool
  | Effect.netCall _ => false
  | Effect.stdoutWrite _ => true

/-- The side-effect trace of one execution: the single outbound call
attempt, followed by the print of the response when the call succeeds. -/
def effects (env : Env) (config : ClientConfig) (opts : RequestOptions) : List Effect :=
  Effect.netCall (serializeRequest opts) ::
    (match complete_chat env config opts with
     | Except.ok r => [Effect.stdoutWrite r]
     | Except.error _ => [])

/-- The request-construction step of the script: the client configuration
and the transmitted body it builds, given the surrounding world.  The
source reads nothing from the world while constructing the request. -/
def buildRequest (_env : Env) : ClientConfig × Json :=
  (client, transmittedBody)

/-- A concrete successful response used to exercise the model. -/
def sampleResponse : ChatResponse :=
  ChatResponse.mk "chatcmpl-1" "ernie-3.5-8k" "你好！有什么可以帮助你？" 10

/-- A world where every endpoint is reachable and the service always
answers with `sampleResponse`. -/
def envOk : Env :=
  Env.mk [] 0 0 (fun _ => true) (fun _ _ => ServiceOutcome.success sampleResponse)

/-- A world where no endpoint is reachable. -/
def envDown : Env :=
  Env.mk [] 0 0 (fun _ => false) (fun _ _ => ServiceOutcome.success sampleResponse)

/-- The shipped client with a non-empty credential filled in. -/
def clientGood : ClientConfig :=
  ClientConfig.mk "https://qianfan.baidubce.com/v2" "sk-test"

theorem parseRole_roleToString (r : Role) : parseRole (roleToString r) = some r := by
  cases r <;> rfl

theorem deserializeMessages_map (ms : List ChatMessage) :
    deserializeMessages (ms.map serializeMessage) = some ms := by
  induction ms with
  | nil => rfl
  | cons m ms ih =>
      simp [deserializeMessages, serializeMessage, deserializeMessage,
        parseRole_roleToString, ih]

theorem deserializeFlags_serializeFlags (f : WebSearchFlags) :
    deserializeFlags (serializeFlags f) = some f := by
  rfl

/-- Claim C1: for every successful invocation of `complete_chat` with a
well-formed request (non-empty api_key, reachable endpoint, the script's
options with model "ernie-3.5-8k" and the single user message "您好"), the
response the service produced is returned to the caller unchanged and the
program prints exactly that response to standard output. -/
theorem response_returned_unchanged_and_printed :
    ∀ (env : Env) (config : ClientConfig) (r : ChatResponse),
      config.api_key ≠ "" →
      env.reachable config.base_url = true →
      env.service config (serializeRequest requestOptions) = ServiceOutcome.success r →
      complete_chat env config requestOptions = Except.ok r ∧
      run env config requestOptions = ProcessOutcome.normalExit [r] := by
  intro env config r hkey hreach hsvc
  constructor
  · simp [complete_chat, hreach, hkey, hsvc]
  · simp [run, complete_chat, hreach, hkey, hsvc]

theorem response_returned_unchanged_and_printed_witness :
    complete_chat envOk clientGood requestOptions = Except.ok sampleResponse ∧
    run envOk clientGood requestOptions = ProcessOutcome.normalExit [sampleResponse] :=
  response_returned_unchanged_and_printed envOk clientGood sampleResponse
    (by decide) rfl rfl

/-- Claim C2: the transmitted request body carries exactly one message,
with role "user" and content "您好", identical to the message sequence as
constructed (decoding the transmitted body recovers exactly that singleton
sequence). -/
theorem transmitted_messages_exact :
    (deserializeRequest transmittedBody).map RequestOptions.messages
      = some [ChatMessage.mk Role.user "您好"] ∧
    requestOptions.messages = [ChatMessage.mk Role.user "您好"] :=
  ⟨rfl, rfl⟩

/-- Claim C3: the transmitted request body carries the `web_search` flag
group with enable = false, enable_citation = false, enable_trace = false,
identical to the flags as constructed (no flag added, removed or changed
between construction and transmission). -/
theorem transmitted_flags_exact :
    (deserializeRequest transmittedBody).map RequestOptions.web_search
      = some (WebSearchFlags.mk false false false) ∧
    requestOptions.web_search = WebSearchFlags.mk false false false :=
  ⟨rfl, rfl⟩

/-- Claim C4 counterexample: with an empty api_key but an unreachable
endpoint, the call fails with a network error, not an authentication error,
so the claim as stated (every empty-api_key invocation fails with an
authentication error) is false. -/
theorem empty_key_unreachable_is_network :
    complete_chat envDown client requestOptions = Except.error ApiError.network ∧
    ApiError.network ≠ ApiError.authentication :=
  ⟨rfl, by decide⟩

/-- Claim C4 (amended): for every invocation of `complete_chat` whose
endpoint is reachable and whose api_key is empty, the call fails with an
authentication error — for every possible service behaviour, so before any
response body is interpreted. -/
theorem empty_key_fails_authentication :
    ∀ (env : Env) (config : ClientConfig) (opts : RequestOptions),
      env.reachable config.base_url = true →
      config.api_key = "" →
      complete_chat env config opts = Except.error ApiError.authentication := by
  intro env config opts hreach hkey
  simp [complete_chat, hreach, hkey]

theorem empty_key_fails_authentication_witness :
    complete_chat envOk client requestOptions = Except.error ApiError.authentication :=
  empty_key_fails_authentication envOk client requestOptions rfl rfl

/-- Claim C5: for every invocation of `complete_chat` whose base_url is
unreachable, the call fails with a network error, which is neither an
authentication error nor a validation error. -/
theorem unreachable_fails_network :
    ∀ (env : Env) (config : ClientConfig) (opts : RequestOptions),
      env.reachable config.base_url = false →
      complete_chat env config opts = Except.error ApiError.network ∧
      ApiError.network ≠ ApiError.authentication ∧
      ApiError.network ≠ ApiError.validation := by
  intro env config opts hreach
  exact ⟨by simp [complete_chat, hreach], by decide, by decide⟩

theorem unreachable_fails_network_witness :
    complete_chat envDown clientGood requestOptions = Except.error ApiError.network ∧
    ApiError.network ≠ ApiError.authentication ∧
    ApiError.network ≠ ApiError.validation :=
  unreachable_fails_network envDown clientGood requestOptions rfl

/-- Claim C6: serializing any `RequestOptions` to the transmitted wire form
and deserializing it back yields a structurally identical value — model,
messages and feature flags unchanged. -/
theorem serialize_deserialize_roundtrip (o : RequestOptions) :
    deserializeRequest (serializeRequest o) = some o := by
  obtain ⟨model, messages, flags⟩ := o
  obtain ⟨e, c, t⟩ := flags
  simp [serializeRequest, deserializeRequest, serializeFlags, deserializeFlags,
    deserializeMessages_map]

/-- Claim C7: no error of the taxonomy is caught by the program — every
failing call terminates the process with exactly that error unmodified,
and every successful call terminates the process normally after printing
the response. -/
theorem errors_propagate_unhandled :
    ∀ (env : Env) (config : ClientConfig) (opts : RequestOptions)
      (e : ApiError) (r : ChatResponse),
      (complete_chat env config opts = Except.error e →
        run env config opts = ProcessOutcome.crashed e) ∧
      (complete_chat env config opts = Except.ok r →
        run env config opts = ProcessOutcome.normalExit [r]) := by
  intro env config opts e r
  constructor
  · intro h
    simp [run, h]
  · intro h
    simp [run, h]

theorem errors_propagate_unhandled_witness :
    run envOk client requestOptions = ProcessOutcome.crashed ApiError.authentication ∧
    run envOk clientGood requestOptions = ProcessOutcome.normalExit [sampleResponse] :=
  ⟨(errors_propagate_unhandled envOk client requestOptions
      ApiError.authentication sampleResponse).1 rfl,
   (errors_propagate_unhandled envOk clientGood requestOptions
      ApiError.authentication sampleResponse).2 rfl⟩

/-- Claim C8 counterexample: on an execution whose call fails (here the
shipped client, whose api_key is empty), the side-effect trace holds the
single outbound call and no write to standard output, so the claim as
stated (every execution performs exactly one write of the result to
standard output) is false. -/
theorem failing_execution_prints_nothing :
    List.countP isStdoutWrite (effects envOk client requestOptions) = 0 ∧
    List.countP isNetCall (effects envOk client requestOptions) = 1 :=
  ⟨rfl, rfl⟩

/-- Claim C8 (amended): for every execution, the side effects are exactly
one outbound network call carrying the serialized request and, exactly when
the call succeeds, one write of the returned response to standard output;
nothing else. -/
theorem effects_are_one_call_one_print :
    ∀ (env : Env) (config : ClientConfig) (opts : RequestOptions),
      List.countP isNetCall (effects env config opts) = 1 ∧
      (∀ r : ChatResponse, complete_chat env config opts = Except.ok r →
        effects env config opts =
          [Effect.netCall (serializeRequest opts), Effect.stdoutWrite r]) ∧
      (∀ e : ApiError, complete_chat env config opts = Except.error e →
        effects env config opts = [Effect.netCall (serializeRequest opts)]) := by
  intro env config opts
  refine ⟨?_, ?_, ?_⟩
  · cases h : complete_chat env config opts <;>
      simp [effects, h, List.countP, List.countP.go, isNetCall, isStdoutWrite]
  · intro r h
    simp [effects, h]
  · intro e h
    simp [effects, h]

theorem effects_are_one_call_one_print_witness :
    effects envOk clientGood requestOptions =
      [Effect.netCall (serializeRequest requestOptions), Effect.stdoutWrite sampleResponse] ∧
    effects envOk client requestOptions =
      [Effect.netCall (serializeRequest requestOptions)] :=
  ⟨(effects_are_one_call_one_print envOk clientGood requestOptions).2.1
      sampleResponse rfl,
   (effects_are_one_call_one_print envOk client requestOptions).2.2
      ApiError.authentication rfl⟩

/-- Claim C9: the shipped configuration is fixed — the transmitted model
identifier is "ernie-3.5-8k", the endpoint root is
"https://qianfan.baidubce.com/v2", and the supplied api_key is the empty
string. -/
theorem shipped_configuration_fixed :
    requestOptions.model = "ernie-3.5-8k" ∧
    client.base_url = "https://qianfan.baidubce.com/v2" ∧
    client.api_key = "" :=
  ⟨rfl, rfl, rfl⟩

/-- Claim C10: request construction is deterministic — any two executions,
whatever their environment variables, randomness, clock, reachability or
service behaviour, build identical request descriptions (client
configuration and transmitted body). -/
theorem request_construction_deterministic :
    ∀ e1 e2 : Env, buildRequest e1 = buildRequest e2 :=
  fun _ _ => rfl

end BaiduExample
